import Mathlib

/-!
Verification of the transactional funds-transfer engine of the
go-backend-bank repository: a shallow embedding of the unit-of-work
executor (`execTx`), the transfer orchestrator (`TransferTx`), and the
account/currency guard (`validAccount` / `createTransfer` handler),
together with proofs of the spec's testable properties.

The generated sqlc query layer (the `Queries` primitives `CreateTransfer`,
`CreateEntry`, `AddAccountBalance`, `GetAccount`) is not part of the
repository snapshot; those primitives are modelled from the spec
(single-row inserts, and an atomic balance adjustment returning the new
row).  `execTx`, `TransferTx` (db/sqlc store file), `validAccount`,
`createTransfer` (api/transfer.go) and `CheckError` (util) are embedded
directly from the source.
-/

namespace Bank

/-- An account row: numeric ID, owning principal, signed balance in the
smallest currency unit, currency code, creation timestamp. -/
structure Account where
  id : Int
  owner : String
  balance : Int
  currency : String
  createdAt : Int
deriving Repr, DecidableEq

/-- A transfer record: source and destination account IDs and the amount. -/
structure Transfer where
  id : Int
  fromAccountID : Int
  toAccountID : Int
  amount : Int
  createdAt : Int
deriving Repr, DecidableEq

/-- A ledger entry: one signed movement recorded against one account. -/
structure Entry where
  id : Int
  accountID : Int
  amount : Int
  createdAt : Int
deriving Repr, DecidableEq

/-- Errors surfaced by the store layer.  `noRows` models `sql.ErrNoRows`
(the distinguished not-found condition); `injected n` models a simulated
failure of the n-th primitive call inside a transaction; `base` models any
other opaque store failure; `composite` models the error built by
`fmt.Errorf("tx err: %v\nrb err: %v", err, rbErr)`, which carries both the
original failure and the rollback failure. -/
inductive Err where
  | noRows : Err
  | injected : Nat → Err
  | base : String → Err
  | composite : Err → Err → Err
deriving Repr, DecidableEq

/-- The visible state of the relational store: the accounts table, the
transfers table, the entries table, the next auto-generated IDs and the
current timestamp used for `created_at` columns. -/
structure DB where
  accounts : List Account
  transfers : List Transfer
  entries : List Entry
  nextTransferID : Int
  nextEntryID : Int
  now : Int
deriving Repr, DecidableEq

/-- One store write issued by the orchestrator, recorded for the ordering
properties. -/
inductive PrimCall where
  | createTransfer : Int → Int → Int → PrimCall
  | createEntry : Int → Int → PrimCall
  | addAccountBalance : Int → Int → PrimCall
deriving Repr, DecidableEq

/-- A transaction-scoped handle to the ledger primitives: the transaction's
working database state, a counter of primitive calls issued so far, the log
of issued writes, and the index (if any) at which a simulated failure is
injected. -/
structure Queries where
  db : DB
  calls : Nat
  log : List PrimCall
  failAt : Option Nat
deriving Repr, DecidableEq

def emptyAccount : Account := ⟨0, "", 0, "", 0⟩

def emptyTransfer : Transfer := ⟨0, 0, 0, 0, 0⟩

def emptyEntry : Entry := ⟨0, 0, 0, 0⟩

structure CreateTransferParams where
  fromAccountID : Int
  toAccountID : Int
  amount : Int
deriving Repr, DecidableEq

structure CreateEntryParams where
  accountID : Int
  amount : Int
deriving Repr, DecidableEq

structure AddAccountBalanceParams where
  id : Int
  amount : Int
deriving Repr, DecidableEq

/-- Modelled from the spec: the generated query layer's `CreateTransfer`
primitive (its sqlc source is not in the snapshot) — "insert transfer
record".  Inserts one row with the next auto-generated ID and returns it.
Returns the Go zero value together with the error on failure. -/
def CreateTransfer (q : Queries) (arg : CreateTransferParams) :
    Transfer × Queries × Option Err :=
  let logged := { q with
                  calls := q.calls + 1
                  log := q.log ++ [PrimCall.createTransfer arg.fromAccountID arg.toAccountID arg.amount] }
  if q.failAt = some q.calls then
    (emptyTransfer, logged, some (Err.injected q.calls))
  else
    let t : Transfer :=
      ⟨q.db.nextTransferID, arg.fromAccountID, arg.toAccountID, arg.amount, q.db.now⟩
    (t, { logged with db := { logged.db with
            transfers := logged.db.transfers ++ [t],
            nextTransferID := logged.db.nextTransferID + 1 } }, none)

/-- Modelled from the spec: the generated query layer's `CreateEntry`
primitive (its sqlc source is not in the snapshot) — "insert ledger
entry".  Inserts one row with the next auto-generated ID and returns it. -/
def CreateEntry (q : Queries) (arg : CreateEntryParams) :
    Entry × Queries × Option Err :=
  let logged := { q with
                  calls := q.calls + 1
                  log := q.log ++ [PrimCall.createEntry arg.accountID arg.amount] }
  if q.failAt = some q.calls then
    (emptyEntry, logged, some (Err.injected q.calls))
  else
    let e : Entry := ⟨q.db.nextEntryID, arg.accountID, arg.amount, q.db.now⟩
    (e, { logged with db := { logged.db with
            entries := logged.db.entries ++ [e],
            nextEntryID := logged.db.nextEntryID + 1 } }, none)

/-- Adjust the balance of every row whose ID matches (IDs are unique in the
real table, so at most one row changes). -/
def bump (id δ : Int) (a : Account) : Account :=
  if a.id = id then { a with balance := a.balance + δ } else a

/-- Modelled from the spec: the generated query layer's `AddAccountBalance`
primitive (its sqlc source is not in the snapshot) — "atomically adjust an
account's balance by a signed delta and return the new row".  A missing row
is the store's no-rows condition. -/
def AddAccountBalance (q : Queries) (arg : AddAccountBalanceParams) :
    Account × Queries × Option Err :=
  let logged := { q with
                  calls := q.calls + 1
                  log := q.log ++ [PrimCall.addAccountBalance arg.id arg.amount] }
  if q.failAt = some q.calls then
    (emptyAccount, logged, some (Err.injected q.calls))
  else
    match q.db.accounts.find? (fun a => a.id == arg.id) with
    | none => (emptyAccount, logged, some Err.noRows)
    | some a =>
      ({ a with balance := a.balance + arg.amount },
       { logged with db := { logged.db with
           accounts := logged.db.accounts.map (bump arg.id arg.amount) } },
       none)

/-- Modelled from the spec: the generated query layer's `GetAccount`
primitive (its sqlc source is not in the snapshot) — "read account".  The
`inj` parameter injects an opaque store failure (connectivity etc.); a
missing row is `sql.ErrNoRows`. -/
def GetAccount (inj : Option Err) (db : DB) (id : Int) : Except Err Account :=
  match inj with
  | some e => Except.error e
  | none =>
    match db.accounts.find? (fun a => a.id == id) with
    | some a => Except.ok a
    | none => Except.error Err.noRows

/-- Injected outcomes of the transaction-control operations `BeginTx`,
`Rollback` and `Commit` (each may fail with a store error). -/
structure TxEnv where
  beginErr : Option Err
  rollbackErr : Option Err
  commitErr : Option Err
deriving Repr, DecidableEq

/-- Embeds `Store.execTx` from the db/sqlc store file.  `s` is the state
captured by the closure `fn` (in Go, variables assigned through the
closure survive a rollback; only the database state is rolled back).
Begin failure returns the begin error; if `fn` fails, rollback is
attempted — a rollback failure yields the composite error carrying both,
otherwise `fn`'s error is returned as-is; if `fn` succeeds, commit makes
the transaction's state visible, and a commit failure is returned as-is
(the state stays uncommitted). -/
def execTx {σ : Type} (env : TxEnv) (db : DB) (s : σ)
    (fn : σ → DB → Option Err × σ × DB) : Option Err × σ × DB :=
  match env.beginErr with
  | some e => (some e, s, db)
  | none =>
    match fn s db with
    | (some err, s', _) =>
      match env.rollbackErr with
      | some rbErr => (some (Err.composite err rbErr), s', db)
      | none => (some err, s', db)
    | (none, s', txdb) =>
      match env.commitErr with
      | some e => (some e, s', db)
      | none => (none, s', txdb)

structure TransferTxParams where
  fromAccountID : Int
  toAccountID : Int
  amount : Int
deriving Repr, DecidableEq

structure TransferTxResult where
  transfer : Transfer
  fromAccount : Account
  toAccount : Account
  fromEntry : Entry
  toEntry : Entry
deriving Repr, DecidableEq

def emptyResult : TransferTxResult :=
  ⟨emptyTransfer, emptyAccount, emptyAccount, emptyEntry, emptyEntry⟩

/-- The closure-captured observation of one `TransferTx` run: the `result`
variable and the log of primitive calls issued on the handle. -/
structure TxTrace where
  result : TransferTxResult
  log : List PrimCall
deriving Repr, DecidableEq

/-- Embeds the closure passed to `execTx` by `Store.TransferTx`: create the
transfer record, the debit entry (−amount on the source), the credit entry
(+amount on the destination), then adjust the source balance by −amount
and the destination balance by +amount, assigning each returned row into
`result` and aborting on the first error. -/
def transferTxFn (failAt : Option Nat) (arg : TransferTxParams)
    (s : TxTrace) (db : DB) : Option Err × TxTrace × DB :=
  let q0 : Queries := ⟨db, 0, s.log, failAt⟩
  let (t, q1, e1) := CreateTransfer q0
    ⟨arg.fromAccountID, arg.toAccountID, arg.amount⟩
  let r1 := { s.result with transfer := t }
  match e1 with
  | some e => (some e, ⟨r1, q1.log⟩, q1.db)
  | none =>
    let (fe, q2, e2) := CreateEntry q1 ⟨arg.fromAccountID, -arg.amount⟩
    let r2 := { r1 with fromEntry := fe }
    match e2 with
    | some e => (some e, ⟨r2, q2.log⟩, q2.db)
    | none =>
      let (te, q3, e3) := CreateEntry q2 ⟨arg.toAccountID, arg.amount⟩
      let r3 := { r2 with toEntry := te }
      match e3 with
      | some e => (some e, ⟨r3, q3.log⟩, q3.db)
      | none =>
        let (fa, q4, e4) := AddAccountBalance q3
          ⟨arg.fromAccountID, -arg.amount⟩
        let r4 := { r3 with fromAccount := fa }
        match e4 with
        | some e => (some e, ⟨r4, q4.log⟩, q4.db)
        | none =>
          let (ta, q5, e5) := AddAccountBalance q4
            ⟨arg.toAccountID, arg.amount⟩
          let r5 := { r4 with toAccount := ta }
          match e5 with
          | some e => (some e, ⟨r5, q5.log⟩, q5.db)
          | none => (none, ⟨r5, q5.log⟩, q5.db)

/-- Embeds `Store.TransferTx`: runs `transferTxFn` as one unit of work
through `execTx`.  Returns the error (if any), the captured trace (result
variable and write log) and the visible database state afterwards. -/
def TransferTx (env : TxEnv) (failAt : Option Nat) (db : DB)
    (arg : TransferTxParams) : Option Err × TxTrace × DB :=
  execTx env db ⟨emptyResult, []⟩ (transferTxFn failAt arg)

/-- The HTTP responses the transfer endpoint can produce, abstracted from
their gin JSON bodies to their status and payload. -/
inductive Resp where
  | badRequest : String → Resp
  | notFound : Resp
  | internalError : Resp
  | unauthorized : Resp
  | okTransfer : TransferTxResult → Resp
deriving Repr, DecidableEq

/-- Embeds `util.CheckError`: a `nil` error passes; `sql.ErrNoRows` is
reported as 404 Not Found, any other error as 500 Internal Server Error.
Returns the boolean result and the response written (if any). -/
def CheckError (err : Option Err) : Bool × Option Resp :=
  match err with
  | some e =>
    if e = Err.noRows then (false, some Resp.notFound)
    else (false, some Resp.internalError)
  | none => (true, none)

/-- Embeds `Server.validAccount` from api/transfer.go: look the account up,
report lookup failures through `CheckError`, then reject on a currency
mismatch with 400 Bad Request; otherwise accept.  Returns the account (the
Go zero value when the lookup failed), the validity flag and the response
written (if any). -/
def validAccount (inj : Option Err) (db : DB) (accountID : Int)
    (currency : String) : Account × Bool × Option Resp :=
  let (account, err) :=
    match GetAccount inj db accountID with
    | Except.ok a => (a, (none : Option Err))
    | Except.error e => (emptyAccount, some e)
  match CheckError err with
  | (false, resp) => (account, false, resp)
  | (true, _) =>
    if account.currency ≠ currency then
      (account, false, some (Resp.badRequest "currency mismatch"))
    else (account, true, none)

/-- The transfer request after JSON binding (api/transfer.go). -/
structure CreateTransferRequest where
  fromAccountID : Int
  toAccountID : Int
  amount : Int
  currency : String
deriving Repr, DecidableEq

/-- Embeds the body of `Server.createTransfer` (api/transfer.go) after JSON
binding: validate the source account, check the authenticated user owns it,
validate the destination account, then run `TransferTx`; any transaction
error becomes 500.  `injFrom`/`injTo` inject store failures into the two
guard lookups; the result pairs the response with the database state after
the handler. -/
def createTransferHandler (env : TxEnv) (injFrom injTo : Option Err)
    (failAt : Option Nat) (db : DB) (authUsername : String)
    (req : CreateTransferRequest) : Resp × DB :=
  let (fromAccount, valid1, resp1) :=
    validAccount injFrom db req.fromAccountID req.currency
  if !valid1 then (resp1.getD Resp.internalError, db)
  else if fromAccount.owner ≠ authUsername then (Resp.unauthorized, db)
  else
    let (_, valid2, resp2) := validAccount injTo db req.toAccountID req.currency
    if !valid2 then (resp2.getD Resp.internalError, db)
    else
      match TransferTx env failAt db
        ⟨req.fromAccountID, req.toAccountID, req.amount⟩ with
      | (some _, _, db') => (Resp.internalError, db')
      | (none, trace, db') => (Resp.okTransfer trace.result, db')

/-- The account-ID sequence of the balance-adjustment writes in a log. -/
def balanceCallIDs (log : List PrimCall) : List Int :=
  log.filterMap (fun c =>
    match c with
    | PrimCall.addAccountBalance id _ => some id
    | _ => none)

/-- The fixed write sequence of one transfer: transfer record, debit entry,
credit entry, source balance, destination balance. -/
def fullWriteSeq (arg : TransferTxParams) : List PrimCall :=
  [PrimCall.createTransfer arg.fromAccountID arg.toAccountID arg.amount,
   PrimCall.createEntry arg.fromAccountID (-arg.amount),
   PrimCall.createEntry arg.toAccountID arg.amount,
   PrimCall.addAccountBalance arg.fromAccountID (-arg.amount),
   PrimCall.addAccountBalance arg.toAccountID arg.amount]

/-- A transaction environment in which begin, rollback and commit all
succeed. -/
def noFailEnv : TxEnv := ⟨none, none, none⟩

/-- Test fixture: account X of the spec's scenarios (balance 100, CAD). -/
def acct1 : Account := ⟨1, "alice", 100, "CAD", 7⟩

/-- Test fixture: account Y of the spec's scenarios (balance 0, CAD). -/
def acct2 : Account := ⟨2, "bob", 0, "CAD", 8⟩

/-- Test fixture: a store holding accounts X and Y and empty ledgers. -/
def dbEx : DB := ⟨[acct1, acct2], [], [], 10, 20, 99⟩

/-- Test fixture: the same accounts as `dbEx` with different ledger
bookkeeping, for the guard-determinism property. -/
def dbEx2 : DB := ⟨[acct1, acct2], [⟨3, 1, 2, 4, 5⟩], [⟨6, 1, -4, 5⟩], 77, 88, 1⟩

/-! ### Helper lemmas -/

theorem bump_id (i δ : Int) (a : Account) : (bump i δ a).id = a.id := by
  unfold bump
  split <;> rfl

theorem bump_owner (i δ : Int) (a : Account) : (bump i δ a).owner = a.owner := by
  unfold bump
  split <;> rfl

theorem bump_currency (i δ : Int) (a : Account) :
    (bump i δ a).currency = a.currency := by
  unfold bump
  split <;> rfl

theorem bump_createdAt (i δ : Int) (a : Account) :
    (bump i δ a).createdAt = a.createdAt := by
  unfold bump
  split <;> rfl

theorem bump_ne (i δ : Int) (a : Account) (h : a.id ≠ i) : bump i δ a = a := by
  unfold bump
  simp [h]

/-- Looking an account up by ID commutes with an ID-preserving map. -/
theorem find?_map_of_id (f : Account → Account) (hf : ∀ a, (f a).id = a.id)
    (l : List Account) (j : Int) :
    (l.map f).find? (fun a => a.id == j) =
      (l.find? (fun a => a.id == j)).map f := by
  induction l with
  | nil => simp
  | cons a l ih =>
    by_cases h : (a.id == j) = true
    · simp [List.find?_cons, h, hf]
    · simp [List.find?_cons, h, hf, ih]

theorem comp_bump_pred (i δ j : Int) :
    ((fun (a : Account) => a.id == j) ∘ bump i δ) = fun a => a.id == j := by
  funext a
  simp [Function.comp, bump_id]

theorem find?_map_bump (i δ : Int) (l : List Account) (j : Int) :
    (l.map (bump i δ)).find? (fun a => a.id == j) =
      (l.find? (fun a => a.id == j)).map (bump i δ) :=
  find?_map_of_id (bump i δ) (bump_id i δ) l j

/-- The transfer produced by a run over database `db`. -/
def mkTransfer (db : DB) (arg : TransferTxParams) : Transfer :=
  ⟨db.nextTransferID, arg.fromAccountID, arg.toAccountID, arg.amount, db.now⟩

/-- The debit entry produced by a run over database `db`. -/
def mkFromEntry (db : DB) (arg : TransferTxParams) : Entry :=
  ⟨db.nextEntryID, arg.fromAccountID, -arg.amount, db.now⟩

/-- The credit entry produced by a run over database `db`. -/
def mkToEntry (db : DB) (arg : TransferTxParams) : Entry :=
  ⟨db.nextEntryID + 1, arg.toAccountID, arg.amount, db.now⟩

/-- When both accounts are present and no failure is injected, the body of
`TransferTx` runs to completion and its outcome is fully determined. -/
theorem transferTxFn_run (failAt : Option Nat) (arg : TransferTxParams)
    (s : TxTrace) (db : DB) (accX accY : Account)
    (hf : ∀ k, k < 5 → failAt ≠ some k)
    (hX : db.accounts.find? (fun a => a.id == arg.fromAccountID) = some accX)
    (hY : db.accounts.find? (fun a => a.id == arg.toAccountID) = some accY) :
    transferTxFn failAt arg s db =
      (none,
       ⟨⟨mkTransfer db arg,
         { accX with balance := accX.balance + -arg.amount },
         { bump arg.fromAccountID (-arg.amount) accY with
           balance := (bump arg.fromAccountID (-arg.amount) accY).balance
             + arg.amount },
         mkFromEntry db arg,
         mkToEntry db arg⟩,
        s.log ++ fullWriteSeq arg⟩,
       { db with
         accounts := (db.accounts.map (bump arg.fromAccountID (-arg.amount))).map
           (bump arg.toAccountID arg.amount)
         transfers := db.transfers ++ [mkTransfer db arg]
         entries := db.entries ++ [mkFromEntry db arg, mkToEntry db arg]
         nextTransferID := db.nextTransferID + 1
         nextEntryID := db.nextEntryID + 1 + 1 }) := by
  rcases failAt with _ | n
  · simp [transferTxFn, CreateTransfer, CreateEntry, AddAccountBalance, hX,
      comp_bump_pred, bump_id, hY, fullWriteSeq, mkTransfer, mkFromEntry,
      mkToEntry]
  · have h0 : n ≠ 0 := fun h => hf 0 (by omega) (by simp [h])
    have h1 : n ≠ 1 := fun h => hf 1 (by omega) (by simp [h])
    have h2 : n ≠ 2 := fun h => hf 2 (by omega) (by simp [h])
    have h3 : n ≠ 3 := fun h => hf 3 (by omega) (by simp [h])
    have h4 : n ≠ 4 := fun h => hf 4 (by omega) (by simp [h])
    simp [transferTxFn, CreateTransfer, CreateEntry, AddAccountBalance, hX,
      comp_bump_pred, bump_id, hY, fullWriteSeq, mkTransfer, mkFromEntry,
      mkToEntry, h0, h1, h2, h3, h4]

/-- An injected failure at any of the five primitive calls makes the body
report an error. -/
theorem transferTxFn_injected (n : Nat) (hn : n < 5) (arg : TransferTxParams)
    (s : TxTrace) (db : DB) :
    (transferTxFn (some n) arg s db).1 ≠ none := by
  interval_cases n <;>
    simp only [transferTxFn, CreateTransfer, CreateEntry, AddAccountBalance] <;>
    norm_num <;>
    (repeat' split) <;>
    simp_all

/-- If the source account is missing, the body reports an error. -/
theorem transferTxFn_noFrom (failAt : Option Nat) (arg : TransferTxParams)
    (s : TxTrace) (db : DB)
    (hX : db.accounts.find? (fun a => a.id == arg.fromAccountID) = none) :
    (transferTxFn failAt arg s db).1 ≠ none := by
  rcases failAt with _ | n
  · simp [transferTxFn, CreateTransfer, CreateEntry, AddAccountBalance, hX]
  · by_cases hn : n < 5
    · exact transferTxFn_injected n hn arg s db
    · have h0 : n ≠ 0 := by omega
      have h1 : n ≠ 1 := by omega
      have h2 : n ≠ 2 := by omega
      have h3 : n ≠ 3 := by omega
      have h4 : n ≠ 4 := by omega
      simp [transferTxFn, CreateTransfer, CreateEntry, AddAccountBalance, hX,
        h0, h1, h2, h3, h4]

/-- If the destination account is missing, the body reports an error. -/
theorem transferTxFn_noTo (failAt : Option Nat) (arg : TransferTxParams)
    (s : TxTrace) (db : DB)
    (hY : db.accounts.find? (fun a => a.id == arg.toAccountID) = none) :
    (transferTxFn failAt arg s db).1 ≠ none := by
  rcases failAt with _ | n
  · rcases hfX : db.accounts.find? (fun a => a.id == arg.fromAccountID)
      with _ | accX <;>
      simp [transferTxFn, CreateTransfer, CreateEntry, AddAccountBalance,
        hfX, hY, List.find?_map, comp_bump_pred]
  · by_cases hn : n < 5
    · exact transferTxFn_injected n hn arg s db
    · have h0 : n ≠ 0 := by omega
      have h1 : n ≠ 1 := by omega
      have h2 : n ≠ 2 := by omega
      have h3 : n ≠ 3 := by omega
      have h4 : n ≠ 4 := by omega
      rcases hfX : db.accounts.find? (fun a => a.id == arg.fromAccountID)
        with _ | accX <;>
        simp [transferTxFn, CreateTransfer, CreateEntry, AddAccountBalance,
          hfX, hY, List.find?_map, comp_bump_pred, h0, h1, h2, h3, h4]

/-- Inversion: a successful run of `TransferTx`'s body implies both
accounts were present, and its trace and database state are exactly those
of the fully determined run. -/
theorem transferTxFn_none_inv (failAt : Option Nat) (arg : TransferTxParams)
    (s : TxTrace) (db : DB) (t : TxTrace) (d : DB)
    (h : transferTxFn failAt arg s db = (none, t, d)) :
    ∃ accX accY,
      db.accounts.find? (fun a => a.id == arg.fromAccountID) = some accX ∧
      db.accounts.find? (fun a => a.id == arg.toAccountID) = some accY ∧
      t = ⟨⟨mkTransfer db arg,
            { accX with balance := accX.balance + -arg.amount },
            { bump arg.fromAccountID (-arg.amount) accY with
              balance := (bump arg.fromAccountID (-arg.amount) accY).balance
                + arg.amount },
            mkFromEntry db arg,
            mkToEntry db arg⟩,
           s.log ++ fullWriteSeq arg⟩ ∧
      d = { db with
            accounts := (db.accounts.map
              (bump arg.fromAccountID (-arg.amount))).map
              (bump arg.toAccountID arg.amount)
            transfers := db.transfers ++ [mkTransfer db arg]
            entries := db.entries ++ [mkFromEntry db arg, mkToEntry db arg]
            nextTransferID := db.nextTransferID + 1
            nextEntryID := db.nextEntryID + 1 + 1 } := by
  rcases hfX : db.accounts.find? (fun a => a.id == arg.fromAccountID)
    with _ | accX
  · exact absurd (by rw [h]) (transferTxFn_noFrom failAt arg s db hfX)
  rcases hfY : db.accounts.find? (fun a => a.id == arg.toAccountID)
    with _ | accY
  · exact absurd (by rw [h]) (transferTxFn_noTo failAt arg s db hfY)
  have hf : ∀ k, k < 5 → failAt ≠ some k := by
    intro k hk hEq
    subst hEq
    exact transferTxFn_injected k hk arg s db (by rw [h])
  have hrun := transferTxFn_run failAt arg s db accX accY hf hfX hfY
  rw [hrun] at h
  simp only [Prod.mk.injEq] at h
  exact ⟨accX, accY, hfX, hfY, h.2.1.symm, h.2.2.symm⟩

/-- Inversion: a unit of work that returns no error must have begun,
run its body successfully and committed, and the committed state is the
body's final state. -/
theorem execTx_none_inv {σ : Type} (env : TxEnv) (db : DB) (s : σ)
    (fn : σ → DB → Option Err × σ × DB) (s' : σ) (d' : DB)
    (h : execTx env db s fn = (none, s', d')) :
    env.beginErr = none ∧ env.commitErr = none ∧ fn s db = (none, s', d') := by
  obtain ⟨be, re, ce⟩ := env
  cases be
  case some e => simp [execTx] at h
  case none =>
    rcases hfn : fn s db with ⟨e?, s2, d2⟩
    cases e?
    case some err =>
      cases re <;> simp_all [execTx]
    case none =>
      cases ce <;> simp_all [execTx]

/-- Inversion: a successful `TransferTx` implies both accounts were
present and fully determines the returned trace and the committed
database state. -/
theorem TransferTx_success_inv (env : TxEnv) (failAt : Option Nat) (db : DB)
    (arg : TransferTxParams) (t : TxTrace) (d : DB)
    (h : TransferTx env failAt db arg = (none, t, d)) :
    ∃ accX accY,
      db.accounts.find? (fun a => a.id == arg.fromAccountID) = some accX ∧
      db.accounts.find? (fun a => a.id == arg.toAccountID) = some accY ∧
      t = ⟨⟨mkTransfer db arg,
            { accX with balance := accX.balance + -arg.amount },
            { bump arg.fromAccountID (-arg.amount) accY with
              balance := (bump arg.fromAccountID (-arg.amount) accY).balance
                + arg.amount },
            mkFromEntry db arg,
            mkToEntry db arg⟩,
           fullWriteSeq arg⟩ ∧
      d = { db with
            accounts := (db.accounts.map
              (bump arg.fromAccountID (-arg.amount))).map
              (bump arg.toAccountID arg.amount)
            transfers := db.transfers ++ [mkTransfer db arg]
            entries := db.entries ++ [mkFromEntry db arg, mkToEntry db arg]
            nextTransferID := db.nextTransferID + 1
            nextEntryID := db.nextEntryID + 1 + 1 } := by
  unfold TransferTx at h
  obtain ⟨-, -, hfn⟩ := execTx_none_inv env db ⟨emptyResult, []⟩
    (transferTxFn failAt arg) t d h
  obtain ⟨accX, accY, hfX, hfY, ht, hd⟩ :=
    transferTxFn_none_inv failAt arg ⟨emptyResult, []⟩ db t d hfn
  exact ⟨accX, accY, hfX, hfY, by simpa using ht, hd⟩

/-- Whatever happens inside the body, the writes it issues form a prefix
of the fixed five-write sequence. -/
theorem transferTxFn_log_prefix (failAt : Option Nat) (arg : TransferTxParams)
    (db : DB) :
    List.IsPrefix ((transferTxFn failAt arg ⟨emptyResult, []⟩ db).2.1.log)
      (fullWriteSeq arg) := by
  rcases failAt with _ | n
  case none =>
    rcases hfX : db.accounts.find? (fun a => a.id == arg.fromAccountID)
      with _ | accX
    · simp [transferTxFn, CreateTransfer, CreateEntry, AddAccountBalance,
        hfX, fullWriteSeq]
    rcases hfY : db.accounts.find? (fun a => a.id == arg.toAccountID)
      with _ | accY <;>
      simp [transferTxFn, CreateTransfer, CreateEntry, AddAccountBalance,
        hfX, hfY, List.find?_map, comp_bump_pred, fullWriteSeq]
  case some =>
    by_cases hn : n < 5
    · interval_cases n
      · simp [transferTxFn, CreateTransfer, fullWriteSeq]
      · simp [transferTxFn, CreateTransfer, CreateEntry, fullWriteSeq]
      · simp [transferTxFn, CreateTransfer, CreateEntry, fullWriteSeq]
      · simp [transferTxFn, CreateTransfer, CreateEntry, AddAccountBalance,
          fullWriteSeq]
      · rcases hfX : db.accounts.find? (fun a => a.id == arg.fromAccountID)
          with _ | accX <;>
          simp [transferTxFn, CreateTransfer, CreateEntry, AddAccountBalance,
            hfX, fullWriteSeq]
    · have h0 : n ≠ 0 := by omega
      have h1 : n ≠ 1 := by omega
      have h2 : n ≠ 2 := by omega
      have h3 : n ≠ 3 := by omega
      have h4 : n ≠ 4 := by omega
      rcases hfX : db.accounts.find? (fun a => a.id == arg.fromAccountID)
        with _ | accX
      · simp [transferTxFn, CreateTransfer, CreateEntry, AddAccountBalance,
          hfX, h0, h1, h2, h3, h4, fullWriteSeq]
      rcases hfY : db.accounts.find? (fun a => a.id == arg.toAccountID)
        with _ | accY <;>
        simp [transferTxFn, CreateTransfer, CreateEntry, AddAccountBalance,
          hfX, hfY, List.find?_map, comp_bump_pred, h0, h1, h2, h3, h4,
          fullWriteSeq]

/-! ### Claims -/

/-- C1: For every successful TransferTx of amount A from account X to
account Y, the returned FromEntry has amount −A recorded against X and the
returned ToEntry has amount +A recorded against Y, so the two entry
amounts sum to zero. -/
theorem C1_entry_conservation (env : TxEnv) (failAt : Option Nat) (db : DB)
    (arg : TransferTxParams) (t : TxTrace) (d : DB)
    (h : TransferTx env failAt db arg = (none, t, d)) :
    t.result.fromEntry.amount = -arg.amount ∧
    t.result.fromEntry.accountID = arg.fromAccountID ∧
    t.result.toEntry.amount = arg.amount ∧
    t.result.toEntry.accountID = arg.toAccountID ∧
    t.result.fromEntry.amount + t.result.toEntry.amount = 0 := by
  obtain ⟨accX, accY, -, -, ht, -⟩ :=
    TransferTx_success_inv env failAt db arg t d h
  subst ht
  simp [mkFromEntry, mkToEntry]

/-- Witness for C1 on the spec's scenario: transfer 30 from X to Y. -/
theorem C1_entry_conservation_witness :
    (TransferTx noFailEnv none dbEx ⟨1, 2, 30⟩).2.1.result.fromEntry.amount
      = -30 ∧
    (TransferTx noFailEnv none dbEx ⟨1, 2, 30⟩).2.1.result.toEntry.amount
      = 30 ∧
    (TransferTx noFailEnv none dbEx ⟨1, 2, 30⟩).2.1.result.fromEntry.amount +
      (TransferTx noFailEnv none dbEx ⟨1, 2, 30⟩).2.1.result.toEntry.amount
      = 0 := by
  have h : TransferTx noFailEnv none dbEx ⟨1, 2, 30⟩ =
      (none, (TransferTx noFailEnv none dbEx ⟨1, 2, 30⟩).2.1,
        (TransferTx noFailEnv none dbEx ⟨1, 2, 30⟩).2.2) := rfl
  obtain ⟨h1, -, h2, -, h3⟩ :=
    C1_entry_conservation noFailEnv none dbEx ⟨1, 2, 30⟩ _ _ h
  exact ⟨h1, h2, h3⟩

/-- C2: any failing run of TransferTx leaves the visible store unchanged
(rollback), and a failure injected at any of the five primitive steps
makes the run fail with a single error. -/
theorem C2_atomic_rollback (env : TxEnv) (db : DB) (arg : TransferTxParams) :
    (∀ n, n < 5 → env.beginErr = none →
      (TransferTx env (some n) db arg).1 ≠ none ∧
      (TransferTx env (some n) db arg).2.2 = db) ∧
    (∀ (failAt : Option Nat) (e : Err) (t : TxTrace) (d : DB),
      TransferTx env failAt db arg = (some e, t, d) → d = db) := by
  obtain ⟨be, re, ce⟩ := env
  constructor
  · intro n hn hbe
    obtain rfl : be = none := hbe
    rcases hfn : transferTxFn (some n) arg ⟨emptyResult, []⟩ db
      with ⟨e?, s2, d2⟩
    have hne := transferTxFn_injected n hn arg ⟨emptyResult, []⟩ db
    rw [hfn] at hne
    cases e?
    case none => exact absurd rfl hne
    case some err =>
      cases re <;> simp [TransferTx, execTx, hfn]
  · intro failAt e t d h
    rcases hfn : transferTxFn failAt arg ⟨emptyResult, []⟩ db
      with ⟨e?, s2, d2⟩
    cases be
    case some b => simp_all [TransferTx, execTx]
    case none =>
      cases e?
      case some err =>
        cases re <;> simp_all [TransferTx, execTx]
      case none =>
        cases ce <;> simp_all [TransferTx, execTx]

/-- Witness for C2: a failure injected at the first step (the transfer
record insert) errors out and leaves the store unchanged. -/
theorem C2_atomic_rollback_witness :
    (TransferTx noFailEnv (some 0) dbEx ⟨1, 2, 30⟩).1 ≠ none ∧
    (TransferTx noFailEnv (some 0) dbEx ⟨1, 2, 30⟩).2.2 = dbEx :=
  (C2_atomic_rollback noFailEnv dbEx ⟨1, 2, 30⟩).1 0 (by omega) rfl

/-- C3 (amended): every invocation of TransferTx issues its store writes
as a prefix of the fixed five-write sequence — create the Transfer
record, create the debit Entry (−amount on the source), create the credit
Entry (+amount on the destination), adjust the source balance by −amount,
adjust the destination balance by +amount — and a successful invocation
issues exactly that sequence and returns the Transfer, both Entries and
both updated Accounts together in one result. -/
theorem C3_write_sequence (env : TxEnv) (failAt : Option Nat) (db : DB)
    (arg : TransferTxParams) :
    List.IsPrefix (TransferTx env failAt db arg).2.1.log (fullWriteSeq arg) ∧
    (∀ t d, TransferTx env failAt db arg = (none, t, d) →
      t.log = fullWriteSeq arg ∧
      t.result.transfer.fromAccountID = arg.fromAccountID ∧
      t.result.transfer.toAccountID = arg.toAccountID ∧
      t.result.transfer.amount = arg.amount ∧
      t.result.fromEntry.accountID = arg.fromAccountID ∧
      t.result.fromEntry.amount = -arg.amount ∧
      t.result.toEntry.accountID = arg.toAccountID ∧
      t.result.toEntry.amount = arg.amount ∧
      t.result.fromAccount.id = arg.fromAccountID ∧
      t.result.toAccount.id = arg.toAccountID) := by
  constructor
  · unfold TransferTx
    obtain ⟨be, re, ce⟩ := env
    cases be
    case some e => simp [execTx]
    case none =>
      rcases hfn : transferTxFn failAt arg ⟨emptyResult, []⟩ db
        with ⟨e?, s2, d2⟩
      have hp := transferTxFn_log_prefix failAt arg db
      rw [hfn] at hp
      cases e?
      case some err => cases re <;> simpa [execTx, hfn] using hp
      case none => cases ce <;> simpa [execTx, hfn] using hp
  · intro t d h
    obtain ⟨accX, accY, hfX, hfY, ht, -⟩ :=
      TransferTx_success_inv env failAt db arg t d h
    subst ht
    have hx := List.find?_some hfX
    have hy := List.find?_some hfY
    simp only [beq_iff_eq] at hx hy
    simp [mkTransfer, mkFromEntry, mkToEntry, bump_id, hx, hy]

/-- C3 counterexample: with a failure injected at the second step, the
invocation issues two store writes, not five. -/
theorem C3_write_sequence_counterexample :
    (TransferTx noFailEnv (some 1) dbEx ⟨1, 2, 30⟩).2.1.log.length = 2 ∧
    ¬(TransferTx noFailEnv (some 1) dbEx ⟨1, 2, 30⟩).2.1.log.length = 5 := by
  decide

/-- Witness for C3 on the spec's scenario: a successful transfer issues
exactly the five writes in order. -/
theorem C3_write_sequence_witness :
    (TransferTx noFailEnv none dbEx ⟨1, 2, 30⟩).2.1.log =
      fullWriteSeq ⟨1, 2, 30⟩ := by
  have h : TransferTx noFailEnv none dbEx ⟨1, 2, 30⟩ =
      (none, (TransferTx noFailEnv none dbEx ⟨1, 2, 30⟩).2.1,
        (TransferTx noFailEnv none dbEx ⟨1, 2, 30⟩).2.2) := rfl
  exact ((C3_write_sequence noFailEnv none dbEx ⟨1, 2, 30⟩).2 _ _ h).1

/-- C4: for every unit-of-work function, if it fails and rollback also
fails, execTx returns the composite error carrying both failures; if
rollback succeeds, execTx returns exactly the original error; if the
function succeeds, execTx commits and a commit error is returned as-is
(with no retry). -/
theorem C4_execTx_error_paths (σ : Type) (env : TxEnv) (db : DB) (s : σ)
    (fn : σ → DB → Option Err × σ × DB) (hbe : env.beginErr = none) :
    (∀ err s' d', fn s db = (some err, s', d') →
      (env.rollbackErr = none → execTx env db s fn = (some err, s', db)) ∧
      (∀ rb, env.rollbackErr = some rb →
        execTx env db s fn = (some (Err.composite err rb), s', db))) ∧
    (∀ s' d', fn s db = (none, s', d') →
      (env.commitErr = none → execTx env db s fn = (none, s', d')) ∧
      (∀ ce, env.commitErr = some ce →
        execTx env db s fn = (some ce, s', db))) := by
  obtain ⟨be, re, com⟩ := env
  obtain rfl : be = none := hbe
  constructor
  · intro err s' d' hfn
    constructor
    · intro hre
      obtain rfl : re = none := hre
      simp [execTx, hfn]
    · intro rb hre
      obtain rfl : re = some rb := hre
      simp [execTx, hfn]
  · intro s' d' hfn
    constructor
    · intro hce
      obtain rfl : com = none := hce
      simp [execTx, hfn]
    · intro ce hce
      obtain rfl : com = some ce := hce
      simp [execTx, hfn]

/-- Witness for C4: a failing unit of work whose rollback also fails
yields the composite error; the same body under a working rollback yields
the original error alone; a succeeding body under a failing commit yields
the commit error. -/
theorem C4_execTx_error_paths_witness :
    execTx ⟨none, some (Err.base "rb"), none⟩ dbEx 0
      (fun (s : Nat) d => (some (Err.base "boom"), s, d)) =
      (some (Err.composite (Err.base "boom") (Err.base "rb")), 0, dbEx) ∧
    execTx ⟨none, none, none⟩ dbEx 0
      (fun (s : Nat) d => (some (Err.base "boom"), s, d)) =
      (some (Err.base "boom"), 0, dbEx) ∧
    execTx ⟨none, none, some (Err.base "commit")⟩ dbEx 0
      (fun (s : Nat) d => (none, s, d)) =
      (some (Err.base "commit"), 0, dbEx) := by
  refine ⟨?_, ?_, ?_⟩
  · exact ((C4_execTx_error_paths Nat ⟨none, some (Err.base "rb"), none⟩ dbEx 0
      (fun s d => (some (Err.base "boom"), s, d)) rfl).1 (Err.base "boom")
      0 dbEx rfl).2 (Err.base "rb") rfl
  · exact ((C4_execTx_error_paths Nat ⟨none, none, none⟩ dbEx 0
      (fun s d => (some (Err.base "boom"), s, d)) rfl).1 (Err.base "boom")
      0 dbEx rfl).1 rfl
  · exact ((C4_execTx_error_paths Nat ⟨none, none, some (Err.base "commit")⟩
      dbEx 0 (fun s d => (none, s, d)) rfl).2 0 dbEx rfl).2
      (Err.base "commit") rfl

/-- C5 refuted: the two balance adjustments are issued strictly in
(from, to) order, so the account-ID sequence depends on the transfer
direction — transfers 1→2 and 2→1 lock the same pair in opposite
orders. -/
theorem C5_balance_order_direction_dependent :
    balanceCallIDs (TransferTx noFailEnv none dbEx ⟨1, 2, 30⟩).2.1.log
      = [1, 2] ∧
    balanceCallIDs (TransferTx noFailEnv none dbEx ⟨2, 1, 30⟩).2.1.log
      = [2, 1] ∧
    ¬balanceCallIDs (TransferTx noFailEnv none dbEx ⟨1, 2, 30⟩).2.1.log =
      balanceCallIDs (TransferTx noFailEnv none dbEx ⟨2, 1, 30⟩).2.1.log := by
  decide

/-- C6: the guard in `createTransfer` rejects — with the store left
untouched and TransferTx never reached — when the source account lookup
fails (not-found reported as 404, distinct from any other failure's 500),
when the source currency mismatches, when the authenticated principal
does not own the source account, or when the destination lookup fails or
its currency mismatches. -/
theorem C6_guard_rejects (env : TxEnv) (injF injT : Option Err)
    (failAt : Option Nat) (db : DB) (user : String)
    (req : CreateTransferRequest) :
    (GetAccount injF db req.fromAccountID = Except.error Err.noRows →
      createTransferHandler env injF injT failAt db user req =
        (Resp.notFound, db)) ∧
    (∀ e, GetAccount injF db req.fromAccountID = Except.error e →
      e ≠ Err.noRows →
      createTransferHandler env injF injT failAt db user req =
        (Resp.internalError, db)) ∧
    (∀ a, GetAccount injF db req.fromAccountID = Except.ok a →
      a.currency ≠ req.currency →
      createTransferHandler env injF injT failAt db user req =
        (Resp.badRequest "currency mismatch", db)) ∧
    (∀ a, GetAccount injF db req.fromAccountID = Except.ok a →
      a.currency = req.currency → a.owner ≠ user →
      createTransferHandler env injF injT failAt db user req =
        (Resp.unauthorized, db)) ∧
    (∀ a, GetAccount injF db req.fromAccountID = Except.ok a →
      a.currency = req.currency → a.owner = user →
      (GetAccount injT db req.toAccountID = Except.error Err.noRows →
        createTransferHandler env injF injT failAt db user req =
          (Resp.notFound, db)) ∧
      (∀ e, GetAccount injT db req.toAccountID = Except.error e →
        e ≠ Err.noRows →
        createTransferHandler env injF injT failAt db user req =
          (Resp.internalError, db)) ∧
      (∀ b, GetAccount injT db req.toAccountID = Except.ok b →
        b.currency ≠ req.currency →
        createTransferHandler env injF injT failAt db user req =
          (Resp.badRequest "currency mismatch", db))) := by
  refine ⟨?_, ?_, ?_, ?_, ?_⟩
  · intro h
    simp [createTransferHandler, validAccount, CheckError, h]
  · intro e h hne
    simp [createTransferHandler, validAccount, CheckError, h, hne]
  · intro a h hcur
    simp [createTransferHandler, validAccount, CheckError, h, hcur]
  · intro a h hcur howner
    simp [createTransferHandler, validAccount, CheckError, h, hcur, howner]
  · intro a h hcur howner
    refine ⟨?_, ?_, ?_⟩
    · intro h2
      simp [createTransferHandler, validAccount, CheckError, h, hcur,
        howner, h2]
    · intro e h2 hne
      simp [createTransferHandler, validAccount, CheckError, h, hcur,
        howner, h2, hne]
    · intro b h2 hbcur
      simp [createTransferHandler, validAccount, CheckError, h, hcur,
        howner, h2, hbcur]

/-- Witness for C6: a missing source account yields 404, a wrong owner
yields 401, a currency mismatch yields 400 — each with the store
unchanged. -/
theorem C6_guard_rejects_witness :
    createTransferHandler noFailEnv none none none dbEx "alice"
      ⟨5, 2, 30, "CAD"⟩ = (Resp.notFound, dbEx) ∧
    createTransferHandler noFailEnv none none none dbEx "carol"
      ⟨1, 2, 30, "CAD"⟩ = (Resp.unauthorized, dbEx) ∧
    createTransferHandler noFailEnv none none none dbEx "alice"
      ⟨1, 2, 30, "USD"⟩ = (Resp.badRequest "currency mismatch", dbEx) := by
  refine ⟨?_, ?_, ?_⟩
  · exact (C6_guard_rejects noFailEnv none none none dbEx "alice"
      ⟨5, 2, 30, "CAD"⟩).1 rfl
  · exact (C6_guard_rejects noFailEnv none none none dbEx "carol"
      ⟨1, 2, 30, "CAD"⟩).2.2.2.1 acct1 rfl rfl (by decide)
  · exact (C6_guard_rejects noFailEnv none none none dbEx "alice"
      ⟨1, 2, 30, "USD"⟩).2.2.1 acct1 rfl (by decide)

/-- C7: the engine layer has no balance-sufficiency check — whenever both
accounts exist, TransferTx succeeds for any amount and the returned source
account's balance is its prior balance minus the amount, possibly
negative. -/
theorem C7_no_sufficiency_check (db : DB) (fromID toID amt : Int)
    (accX accY : Account)
    (hX : db.accounts.find? (fun a => a.id == fromID) = some accX)
    (hY : db.accounts.find? (fun a => a.id == toID) = some accY) :
    (TransferTx noFailEnv none db ⟨fromID, toID, amt⟩).1 = none ∧
    (TransferTx noFailEnv none db
      ⟨fromID, toID, amt⟩).2.1.result.fromAccount.balance
      = accX.balance - amt := by
  have hrun := transferTxFn_run none ⟨fromID, toID, amt⟩ ⟨emptyResult, []⟩
    db accX accY (by simp) hX hY
  constructor
  · simp [TransferTx, execTx, noFailEnv, hrun]
  · simp [TransferTx, execTx, noFailEnv, hrun]
    omega

/-- Witness for C7 on the spec's scenario: transferring 150 out of a
balance of 100 still succeeds and leaves the source at −50. -/
theorem C7_no_sufficiency_check_witness :
    (TransferTx noFailEnv none dbEx ⟨1, 2, 150⟩).1 = none ∧
    (TransferTx noFailEnv none dbEx
      ⟨1, 2, 150⟩).2.1.result.fromAccount.balance = -50 := by
  obtain ⟨h1, h2⟩ := C7_no_sufficiency_check dbEx 1 2 150 acct1 acct2 rfl rfl
  refine ⟨h1, ?_⟩
  rw [h2]
  decide

/-- C8: the account/currency guard is deterministic in the store state —
it depends only on the accounts table, so two invocations against
unchanged accounts return the same account value and the same
accept/reject decision. -/
theorem C8_guard_deterministic (inj : Option Err) (db₁ db₂ : DB)
    (accountID : Int) (currency : String)
    (h : db₁.accounts = db₂.accounts) :
    validAccount inj db₁ accountID currency =
      validAccount inj db₂ accountID currency := by
  simp [validAccount, GetAccount, h]

/-- Witness for C8: the guard decides identically on two stores sharing
the accounts table but differing in every other component. -/
theorem C8_guard_deterministic_witness :
    validAccount none dbEx 1 "CAD" = validAccount none dbEx2 1 "CAD" :=
  C8_guard_deterministic none dbEx dbEx2 1 "CAD" rfl

/-- C9: a successful TransferTx only changes the balance fields of the two
named accounts — every account keeps its identity, owner, currency and
creation timestamp, and every account other than the two named ones also
keeps its balance. -/
theorem C9_frame (env : TxEnv) (failAt : Option Nat) (db : DB)
    (arg : TransferTxParams) (t : TxTrace) (d : DB)
    (h : TransferTx env failAt db arg = (none, t, d)) :
    d.now = db.now ∧
    List.Forall₂ (fun o n =>
      n.id = o.id ∧ n.owner = o.owner ∧ n.currency = o.currency ∧
      n.createdAt = o.createdAt ∧
      (o.id ≠ arg.fromAccountID → o.id ≠ arg.toAccountID →
        n.balance = o.balance))
      db.accounts d.accounts := by
  obtain ⟨accX, accY, -, -, -, hd⟩ :=
    TransferTx_success_inv env failAt db arg t d h
  subst hd
  refine ⟨rfl, ?_⟩
  rw [List.map_map, List.forall₂_map_right_iff]
  refine List.forall₂_same.2 ?_
  intro a ha
  refine ⟨?_, ?_, ?_, ?_, ?_⟩
  · simp [Function.comp, bump_id]
  · simp [Function.comp, bump_owner]
  · simp [Function.comp, bump_currency]
  · simp [Function.comp, bump_createdAt]
  · intro h1 h2
    simp only [Function.comp_apply]
    rw [bump_ne _ _ _ h1, bump_ne _ _ _ h2]

/-- Witness for C9 on the spec's scenario. -/
theorem C9_frame_witness :
    (TransferTx noFailEnv none dbEx ⟨1, 2, 30⟩).2.2.now = dbEx.now ∧
    List.Forall₂ (fun o n =>
      n.id = o.id ∧ n.owner = o.owner ∧ n.currency = o.currency ∧
      n.createdAt = o.createdAt ∧
      (o.id ≠ (1 : Int) → o.id ≠ (2 : Int) → n.balance = o.balance))
      dbEx.accounts (TransferTx noFailEnv none dbEx ⟨1, 2, 30⟩).2.2.accounts := by
  have h : TransferTx noFailEnv none dbEx ⟨1, 2, 30⟩ =
      (none, (TransferTx noFailEnv none dbEx ⟨1, 2, 30⟩).2.1,
        (TransferTx noFailEnv none dbEx ⟨1, 2, 30⟩).2.2) := rfl
  exact C9_frame noFailEnv none dbEx ⟨1, 2, 30⟩ _ _ h

/-- C10: TransferTx validates nothing — for every input with both
referenced accounts present, including non-positive amounts and
FromAccountID = ToAccountID, it does not reject but applies the same
formulas (FromEntry amount = −amount, ToEntry amount = +amount, balance
deltas −amount and +amount), and a successful self-transfer leaves the
account's stored balance unchanged. -/
theorem C10_no_validation (db : DB) (fromID toID amt : Int)
    (accX accY : Account)
    (hX : db.accounts.find? (fun a => a.id == fromID) = some accX)
    (hY : db.accounts.find? (fun a => a.id == toID) = some accY) :
    (TransferTx noFailEnv none db ⟨fromID, toID, amt⟩).1 = none ∧
    (TransferTx noFailEnv none db
      ⟨fromID, toID, amt⟩).2.1.result.fromEntry.amount = -amt ∧
    (TransferTx noFailEnv none db
      ⟨fromID, toID, amt⟩).2.1.result.toEntry.amount = amt ∧
    (TransferTx noFailEnv none db
      ⟨fromID, toID, amt⟩).2.1.result.fromAccount.balance
      = accX.balance - amt ∧
    (fromID ≠ toID →
      (TransferTx noFailEnv none db
        ⟨fromID, toID, amt⟩).2.1.result.toAccount.balance
        = accY.balance + amt) ∧
    (fromID = toID →
      (TransferTx noFailEnv none db
        ⟨fromID, toID, amt⟩).2.1.result.toAccount.balance = accX.balance ∧
      (TransferTx noFailEnv none db ⟨fromID, toID, amt⟩).2.2.accounts.find?
        (fun a => a.id == fromID) = some accX) := by
  have hidX : accX.id = fromID := by
    have := List.find?_some hX
    simpa using this
  have hidY : accY.id = toID := by
    have := List.find?_some hY
    simpa using this
  have hrun := transferTxFn_run none ⟨fromID, toID, amt⟩ ⟨emptyResult, []⟩ db
    accX accY (by simp) hX hY
  refine ⟨?_, ?_, ?_, ?_, ?_, ?_⟩
  · simp [TransferTx, execTx, noFailEnv, hrun]
  · simp [TransferTx, execTx, noFailEnv, hrun, mkFromEntry]
  · simp [TransferTx, execTx, noFailEnv, hrun, mkToEntry]
  · simp [TransferTx, execTx, noFailEnv, hrun]
    omega
  · intro hne
    have hne' : accY.id ≠ fromID := by
      rw [hidY]
      exact fun h => hne h.symm
    simp [TransferTx, execTx, noFailEnv, hrun, bump_ne fromID (-amt) accY hne']
  · intro heq
    subst heq
    rw [hX] at hY
    obtain rfl : accX = accY := Option.some.inj hY
    constructor
    · simp [TransferTx, execTx, noFailEnv, hrun, bump, hidX]
    · obtain ⟨aid, aow, abal, acur, acr⟩ := accX
      simp only at hidX
      subst hidX
      have h2 : (TransferTx noFailEnv none db ⟨aid, aid, amt⟩).2.2.accounts =
          (db.accounts.map (bump aid (-amt))).map (bump aid amt) := by
        simp [TransferTx, execTx, noFailEnv, hrun]
      rw [h2, find?_map_bump, find?_map_bump, hX]
      simp [bump, Account.mk.injEq]

/-- Witness for C10: a transfer of −5 between the two distinct accounts
succeeds with the same formulas (entries 5 and −5, balances 105 and −5),
and a self-transfer of −5 succeeds and nets to an unchanged stored
balance. -/
theorem C10_no_validation_witness :
    (TransferTx noFailEnv none dbEx ⟨1, 2, -5⟩).1 = none ∧
    (TransferTx noFailEnv none dbEx ⟨1, 2, -5⟩).2.1.result.fromEntry.amount
      = 5 ∧
    (TransferTx noFailEnv none dbEx ⟨1, 2, -5⟩).2.1.result.toEntry.amount
      = -5 ∧
    (TransferTx noFailEnv none dbEx
      ⟨1, 2, -5⟩).2.1.result.fromAccount.balance = 105 ∧
    (TransferTx noFailEnv none dbEx ⟨1, 2, -5⟩).2.1.result.toAccount.balance
      = -5 ∧
    (TransferTx noFailEnv none dbEx ⟨1, 1, -5⟩).1 = none ∧
    (TransferTx noFailEnv none dbEx ⟨1, 1, -5⟩).2.2.accounts.find?
      (fun a => a.id == 1) = some acct1 := by
  obtain ⟨g1, g2, g3, g4, g5, -⟩ :=
    C10_no_validation dbEx 1 2 (-5) acct1 acct2 rfl rfl
  obtain ⟨s1, -, -, -, -, s6⟩ :=
    C10_no_validation dbEx 1 1 (-5) acct1 acct1 rfl rfl
  refine ⟨g1, ?_, g3, ?_, ?_, s1, (s6 rfl).2⟩
  · rw [g2]
    decide
  · rw [g4]
    decide
  · rw [g5 (by decide)]
    decide

end Bank
